import Mathlib

/-!
Verification of the HydePark local sync server (`main.py`, `signature_test.py`):
a shallow embedding of the HikCentral request-signing scheme, the worker
reconciliation controller, and the sync orchestrator, with theorems settling
the specification's claims about them.

Bytes are modelled as `Nat` values and 32-bit machine arithmetic is explicit
(`% 4294967296`), mirroring what Python's `hashlib`/`hmac` compute.
-/

namespace Hydepark

/-! ## Byte-level primitives: UTF-8, MD5, SHA-256, HMAC, Base64 -/

/-- UTF-8 encoding of a single Unicode code point, as `str.encode('utf-8')`
produces per character. -/
def utf8Bytes (c : Nat) : List Nat :=
  if c < 128 then [c]
  else if c < 2048 then [192 + c / 64, 128 + c % 64]
  else if c < 65536 then [224 + c / 4096, 128 + c / 64 % 64, 128 + c % 64]
  else [240 + c / 262144, 128 + c / 4096 % 64, 128 + c / 64 % 64, 128 + c % 64]

/-- `s.encode('utf-8')` as a byte list. -/
def utf8Encode (s : String) : List Nat :=
  s.data.foldr (fun ch acc => utf8Bytes ch.toNat ++ acc) []

/-- 32-bit truncation. -/
def m32 (n : Nat) : Nat := n % 4294967296

/-- 32-bit left rotation. -/
def rotl32 (x n : Nat) : Nat := m32 ((x <<< n) ||| (x >>> (32 - n)))

/-- 32-bit right rotation. -/
def rotr32 (x n : Nat) : Nat := m32 ((x >>> n) ||| (x <<< (32 - n)))

/-- A 32-bit word as four bytes, little-endian (MD5's serialization). -/
def le32 (x : Nat) : List Nat :=
  [x % 256, x / 256 % 256, x / 65536 % 256, x / 16777216 % 256]

/-- A 32-bit word as four bytes, big-endian (SHA-256's serialization). -/
def be32 (x : Nat) : List Nat :=
  [x / 16777216 % 256, x / 65536 % 256, x / 256 % 256, x % 256]

/-- A 64-bit quantity as eight bytes, little-endian. -/
def le64 (x : Nat) : List Nat := le32 (x % 4294967296) ++ le32 (x / 4294967296)

/-- A 64-bit quantity as eight bytes, big-endian. -/
def be64 (x : Nat) : List Nat := be32 (x / 4294967296) ++ be32 (x % 4294967296)

/-- Four little-endian bytes as a 32-bit word. -/
def word32LE (bs : List Nat) : Nat :=
  match bs with
  | b0 :: b1 :: b2 :: b3 :: _ => b0 + b1 * 256 + b2 * 65536 + b3 * 16777216
  | [b0, b1, b2] => b0 + b1 * 256 + b2 * 65536
  | [b0, b1] => b0 + b1 * 256
  | [b0] => b0
  | [] => 0

/-- Four big-endian bytes as a 32-bit word. -/
def word32BE (bs : List Nat) : Nat :=
  match bs with
  | b0 :: b1 :: b2 :: b3 :: _ => b0 * 16777216 + b1 * 65536 + b2 * 256 + b3
  | [b0, b1, b2] => b0 * 16777216 + b1 * 65536 + b2 * 256
  | [b0, b1] => b0 * 16777216 + b1 * 65536
  | [b0] => b0 * 16777216
  | [] => 0

/-- The 16 32-bit words of a 64-byte block, under a byte-to-word reading. -/
def blockWords (read : List Nat → Nat) (block : List Nat) : List Nat :=
  (List.range 16).map (fun i => read (block.drop (4 * i)))

/-- Merkle–Damgård padding shared by MD5 and SHA-256: a `0x80` byte, zeros to
56 mod 64, then the 64-bit original bit length (`lenBytes` fixes endianness). -/
def mdPad (lenBytes : Nat → List Nat) (msg : List Nat) : List Nat :=
  let padLen := (55 + 64 - msg.length % 64) % 64 + 1
  msg ++ (128 :: List.replicate (padLen - 1) 0) ++ lenBytes (msg.length * 8)

/-- MD5 per-round shift amounts. -/
def md5S : List Nat :=
  [7, 12, 17, 22, 7, 12, 17, 22, 7, 12, 17, 22, 7, 12, 17, 22,
   5, 9, 14, 20, 5, 9, 14, 20, 5, 9, 14, 20, 5, 9, 14, 20,
   4, 11, 16, 23, 4, 11, 16, 23, 4, 11, 16, 23, 4, 11, 16, 23,
   6, 10, 15, 21, 6, 10, 15, 21, 6, 10, 15, 21, 6, 10, 15, 21]

/-- MD5 sine-derived constants `K[i] = floor(2^32 * abs(sin(i+1)))`. -/
def md5K : List Nat :=
  [3614090360, 3905402710, 606105819, 3250441966, 4118548399, 1200080426,
   2821735955, 4249261313, 1770035416, 2336552879, 4294925233, 2304563134,
   1804603682, 4254626195, 2792965006, 1236535329, 4129170786, 3225465664,
   643717713, 3921069994, 3593408605, 38016083, 3634488961, 3889429448,
   568446438, 3275163606, 4107603335, 1163531501, 2850285829, 4243563512,
   1735328473, 2368359562, 4294588738, 2272392833, 1839030562, 4259657740,
   2763975236, 1272893353, 4139469664, 3200236656, 681279174, 3936430074,
   3572445317, 76029189, 3654602809, 3873151461, 530742520, 3299628645,
   4096336452, 1126891415, 2878612391, 4237533241, 1700485571, 2399980690,
   4293915773, 2240044497, 1873313359, 4264355552, 2734768916, 1309151649,
   4149444226, 3174756917, 718787259, 3951481745]

/-- One MD5 round operation on the running `(a, b, c, d)` state. -/
def md5Op (w : List Nat) (st : Nat × Nat × Nat × Nat) (i : Nat) :
    Nat × Nat × Nat × Nat :=
  let (a, b, c, d) := st
  let f :=
    if i < 16 then (b &&& c) ||| ((b ^^^ 4294967295) &&& d)
    else if i < 32 then (d &&& b) ||| ((d ^^^ 4294967295) &&& c)
    else if i < 48 then b ^^^ c ^^^ d
    else c ^^^ (b ||| (d ^^^ 4294967295))
  let g :=
    if i < 16 then i
    else if i < 32 then (5 * i + 1) % 16
    else if i < 48 then (3 * i + 5) % 16
    else (7 * i) % 16
  let fv := m32 (f + a + md5K.getD i 0 + w.getD g 0)
  (d, m32 (b + rotl32 fv (md5S.getD i 0)), b, c)

/-- MD5 compression of one 64-byte block into the chaining state. -/
def md5Compress (st : Nat × Nat × Nat × Nat) (block : List Nat) :
    Nat × Nat × Nat × Nat :=
  let w := blockWords word32LE block
  let (a, b, c, d) := (List.range 64).foldl (md5Op w) st
  let (a0, b0, c0, d0) := st
  (m32 (a0 + a), m32 (b0 + b), m32 (c0 + c), m32 (d0 + d))

/-- Fold a compression function over consecutive 64-byte blocks. -/
def mdBlocks (compress : α → List Nat → α) (st : α) (bs : List Nat) : α :=
  if bs.length < 64 then st
  else mdBlocks compress (compress st (bs.take 64)) (bs.drop 64)
termination_by bs.length
decreasing_by simp [List.length_drop]; omega

/-- MD5 digest (16 bytes) of a byte string, as `hashlib.md5(...).digest()`. -/
def md5 (msg : List Nat) : List Nat :=
  let st := mdBlocks md5Compress
    (1732584193, 4023233417, 2562383102, 271733878) (mdPad le64 msg)
  le32 st.1 ++ le32 st.2.1 ++ le32 st.2.2.1 ++ le32 st.2.2.2

/-- SHA-256 round constants. -/
def sha256K : List Nat :=
  [1116352408, 1899447441, 3049323471, 3921009573, 961987163, 1508970993,
   2453635748, 2870763221, 3624381080, 310598401, 607225278, 1426881987,
   1925078388, 2162078206, 2614888103, 3248222580, 3835390401, 4022224774,
   264347078, 604807628, 770255983, 1249150122, 1555081692, 1996064986,
   2554220882, 2821834349, 2952996808, 3210313671, 3336571891, 3584528711,
   113926993, 338241895, 666307205, 773529912, 1294757372, 1396182291,
   1695183700, 1986661051, 2177026350, 2456956037, 2730485921, 2820302411,
   3259730800, 3345764771, 3516065817, 3600352804, 4094571909, 275423344,
   430227734, 506948616, 659060556, 883997877, 958139571, 1322822218,
   1537002063, 1747873779, 1955562222, 2024104815, 2227730452, 2361852424,
   2428436474, 2756734187, 3204031479, 3329325298]

/-- SHA-256 message schedule: the 16 block words extended to 64. -/
def sha256Schedule (w : List Nat) (i : Nat) : List Nat :=
  if i < 48 then
    let w15 := w.getD (i + 1) 0
    let w2 := w.getD (i + 14) 0
    let s0 := rotr32 w15 7 ^^^ rotr32 w15 18 ^^^ (w15 >>> 3)
    let s1 := rotr32 w2 17 ^^^ rotr32 w2 19 ^^^ (w2 >>> 10)
    sha256Schedule (w ++ [m32 (w.getD i 0 + s0 + w.getD (i + 9) 0 + s1)]) (i + 1)
  else w
termination_by 48 - i

/-- One SHA-256 round on the eight-word working state. -/
def sha256Op (w : List Nat) (st : List Nat) (i : Nat) : List Nat :=
  match st with
  | [a, b, c, d, e, f, g, h] =>
    let s1 := rotr32 e 6 ^^^ rotr32 e 11 ^^^ rotr32 e 25
    let ch := (e &&& f) ^^^ ((e ^^^ 4294967295) &&& g)
    let t1 := m32 (h + s1 + ch + sha256K.getD i 0 + w.getD i 0)
    let s0 := rotr32 a 2 ^^^ rotr32 a 13 ^^^ rotr32 a 22
    let mj := (a &&& b) ^^^ (a &&& c) ^^^ (b &&& c)
    let t2 := m32 (s0 + mj)
    [m32 (t1 + t2), a, b, c, m32 (d + t1), e, f, g]
  | other => other

/-- SHA-256 compression of one 64-byte block into the chaining state. -/
def sha256Compress (st : List Nat) (block : List Nat) : List Nat :=
  let w := sha256Schedule (blockWords word32BE block) 0
  let fin := (List.range 64).foldl (sha256Op w) st
  (List.range 8).map (fun i => m32 (st.getD i 0 + fin.getD i 0))

/-- SHA-256 digest (32 bytes) of a byte string. -/
def sha256 (msg : List Nat) : List Nat :=
  let st := mdBlocks sha256Compress
    [1779033703, 3144134277, 1013904242, 2773480762,
     1359893119, 2600822924, 528734635, 1541459225] (mdPad be64 msg)
  (st.map be32).foldr (· ++ ·) []

/-- `hmac.new(key, msg, hashlib.sha256).digest()`. -/
def hmacSha256 (key msg : List Nat) : List Nat :=
  let key1 := if 64 < key.length then sha256 key else key
  let key0 := key1 ++ List.replicate (64 - key1.length) 0
  let ipad := key0.map (fun b => b ^^^ 54)
  let opad := key0.map (fun b => b ^^^ 92)
  sha256 (opad ++ sha256 (ipad ++ msg))

/-- The standard Base64 alphabet. -/
def base64Alphabet : List Char :=
  "ABCDEFGHIJKLMNOPQRSTUVWXYZabcdefghijklmnopqrstuvwxyz0123456789+/".data

/-- The Base64 character for a 6-bit value. -/
def b64Char (n : Nat) : Char := base64Alphabet.getD n 'A'

/-- Base64 encoding of a byte list, three bytes to four characters with `=`
padding, as `base64.b64encode` produces. -/
def base64Chunks : List Nat → List Char
  | b0 :: b1 :: b2 :: rest =>
    let n := b0 * 65536 + b1 * 256 + b2
    b64Char (n / 262144 % 64) :: b64Char (n / 4096 % 64) ::
      b64Char (n / 64 % 64) :: b64Char (n % 64) :: base64Chunks rest
  | [b0, b1] =>
    let n := b0 * 65536 + b1 * 256
    [b64Char (n / 262144 % 64), b64Char (n / 4096 % 64), b64Char (n / 64 % 64), '=']
  | [b0] =>
    let n := b0 * 65536
    [b64Char (n / 262144 % 64), b64Char (n / 4096 % 64), '=', '=']
  | [] => []

/-- `base64.b64encode(bs).decode('utf-8')`. -/
def base64Encode (bs : List Nat) : String := String.mk (base64Chunks bs)

/-! ## The HikCentral signature (`HikCentralAPI._calculate_signature`) -/

/-- Embedding of `HikCentralAPI._calculate_signature`: computes the optional
`Content-MD5`, joins the signing fields with newlines exactly as the source
appends them (the MD5 line guarded by the *computed string* being non-empty),
and returns `(signature, content_md5)`. -/
def calculateSignature (appKey appSecret method accept contentType uri body
    timestamp nonce : String) : String × String :=
  let contentMd5 := if body ≠ "" then base64Encode (md5 (utf8Encode body)) else ""
  let parts :=
    [method, accept] ++ (if contentMd5 ≠ "" then [contentMd5] else []) ++
    [contentType, "x-ca-key:" ++ appKey, "x-ca-nonce:" ++ nonce,
     "x-ca-timestamp:" ++ timestamp, uri]
  let stringToSign := String.intercalate "\n" parts
  (base64Encode (hmacSha256 (utf8Encode appSecret) (utf8Encode stringToSign)),
   contentMd5)

/-- The string-to-sign as the specification words it: newline-join of method,
Accept, `Content-MD5` *iff the body is non-empty*, Content-Type, the three
`x-ca-*` fields, and the signing URI. -/
def stringToSignSpec (appKey method accept contentType uri body timestamp
    nonce : String) : String :=
  String.intercalate "\n"
    ([method, accept] ++
     (if body ≠ "" then [base64Encode (md5 (utf8Encode body))] else []) ++
     [contentType, "x-ca-key:" ++ appKey, "x-ca-nonce:" ++ nonce,
      "x-ca-timestamp:" ++ timestamp, uri])

/-! ## Python value modelling for the sync controller

Dict values that may be a string or `None` are `PStr`; dict keys that may be
absent are wrapped in `Option` (so `Option PStr` distinguishes absent,
present-`None`, and present-string — the distinction `dict.get` with a default
makes). -/

/-- A Python value that is either `None` or a string. -/
inductive PStr
  | pnull
  | pstr (s : String)
deriving DecidableEq, Repr

/-- The Python exceptions the controller can actually raise. -/
inductive PyErr
  | typeError
  | attributeError
deriving DecidableEq, Repr

/-- `str(x)` for a string-or-None value, as an f-string interpolates it. -/
def PStr.toPy : PStr → String
  | .pnull => "None"
  | .pstr s => s

/-- Python truthiness filter for a string-or-`None` slot: keeps the value only
when it is a non-empty string (`if x:`). -/
def livePid (o : Option String) : Option String :=
  match o with
  | some s => if s = "" then none else some s
  | none => none

/-- Python `min(s, t)` on two strings: the second argument replaces the first
only when strictly smaller (code-point lexicographic, as Lean's `String` order). -/
def pyMinStr (s t : String) : String := if t < s then t else s

/-- Python `max(s, t)` on two strings. -/
def pyMaxStr (s t : String) : String := if s < t then t else s

/-- Python `min` on two string-or-None values: lexicographic on strings,
`TypeError` when either side is `None`. -/
def pyMin : PStr → PStr → Except PyErr PStr
  | .pstr s, .pstr t => .ok (.pstr (pyMinStr s t))
  | _, _ => .error .typeError

/-- Python `max` on two string-or-None values. -/
def pyMax : PStr → PStr → Except PyErr PStr
  | .pstr s, .pstr t => .ok (.pstr (pyMaxStr s t))
  | _, _ => .error .typeError

/-- Python `str.split()` whitespace (ASCII part). -/
def isPySpace (c : Char) : Bool :=
  c == ' ' || c == '\t' || c == '\n' || c == '\r' || c.toNat == 11 || c.toNat == 12

/-- Token accumulator for `pySplit`: emits the pending token (reversed
accumulator) at each whitespace boundary and at the end. -/
def pySplitChars : List Char → List Char → List String
  | [], acc => if acc.isEmpty then [] else [String.mk acc.reverse]
  | c :: cs, acc =>
    if isPySpace c then
      (if acc.isEmpty then [] else [String.mk acc.reverse]) ++ pySplitChars cs []
    else pySplitChars cs (c :: acc)

/-- `name.strip().split()`: whitespace-delimited tokens, empties dropped (so
the leading `strip` is subsumed). -/
def pySplit (s : String) : List String := pySplitChars s.data []

/-- A ledger entry of `workers_data.json` (`WorkersDatabase`). Fields wrapped
in `Option` model dict keys that some creation sites leave absent; values that
can be JSON null are `PStr`. -/
structure WorkerRecord where
  id : Option String := none
  nationalIdNumber : Option String := none
  fullName : Option String := none
  hikcentral_id : Option String := none
  status : Option String := none
  blocked : Bool := false
  hikcentral_deleted : Option Bool := none
  face_path : Option String := none
  id_card_path : Option String := none
  validFrom : Option PStr := none
  validTo : Option PStr := none
  created_at : Option String := none
  updated_at : Option String := none
  blocked_at : Option String := none
deriving DecidableEq, Repr

/-- The worker dict `process_worker` receives (in this code base always the
output of `_map_event_worker`). All keys are present; values may be `None`. -/
structure WorkerPayload where
  id : Option String := none
  nationalIdNumber : Option String := none
  fullName : Option String := none
  status : PStr := .pstr "pending"
  blocked : Bool := false
  blockedReason : Option String := none
  facePhoto : Option String := none
  nationalIdImage : Option String := none
  unitNumber : Option String := none
  delegatedUserMobile : Option PStr := none
  delegatedUserEmail : Option PStr := none
  validFrom : Option PStr := none
  validTo : Option PStr := none
deriving DecidableEq, Repr

/-- An embedded worker payload of a lifecycle event, before
`_map_event_worker`. Plain `ew.get(k)` conflates absent and null, hence
`Option String`; keys read with a non-`None` default keep the distinction. -/
structure EventWorker where
  workerId : Option String := none
  nationalIdNumber : Option String := none
  fullName : Option String := none
  status : Option PStr := none
  blocked : Option Bool := none
  blockedReason : Option String := none
  facePhoto : Option String := none
  nationalIdImage : Option String := none
  unitNumber : Option String := none
  delegatedUserMobile : Option String := none
  delegatedUserEmail : Option String := none
deriving DecidableEq, Repr

/-- A lifecycle event: a `type` tag and its embedded worker payloads. -/
structure Event where
  type : String
  workers : List EventWorker := []
deriving DecidableEq, Repr

/-- `SyncController._map_event_worker`: field-for-field translation; note
`validFrom`/`validTo` are *present with value `None`*. -/
def mapEventWorker (ew : EventWorker) : WorkerPayload :=
  { id := ew.workerId
    nationalIdNumber := ew.nationalIdNumber
    fullName := ew.fullName
    status := ew.status.getD (.pstr "pending")
    blocked := ew.blocked.getD false
    blockedReason := ew.blockedReason
    facePhoto := ew.facePhoto
    nationalIdImage := ew.nationalIdImage
    unitNumber := ew.unitNumber
    delegatedUserMobile := some (match ew.delegatedUserMobile with
      | some s => .pstr s
      | none => .pnull)
    delegatedUserEmail := some (match ew.delegatedUserEmail with
      | some s => .pstr s
      | none => .pnull)
    validFrom := some .pnull
    validTo := some .pnull }

/-- `WorkersDatabase.get_worker_by_national_id`: first record whose
`nationalIdNumber` equals the key (Python `==`, so `None == None` matches). -/
def getByNationalId : List WorkerRecord → Option String → Option WorkerRecord
  | [], _ => none
  | r :: rs, key =>
    if r.nationalIdNumber = key then some r else getByNationalId rs key

/-- `WorkersDatabase.update_worker_by_national_id`: merge the updates into the
first matching record; the flag reports whether a record matched. -/
def updateByNationalId (f : WorkerRecord → WorkerRecord) :
    List WorkerRecord → Option String → List WorkerRecord × Bool
  | [], _ => ([], false)
  | r :: rs, key =>
    if r.nationalIdNumber = key then (f r :: rs, true)
    else (r :: (updateByNationalId f rs key).1, (updateByNationalId f rs key).2)

/-! ## The HikCentral client calls issued by the controller -/

/-- The payload of `POST person/single/add` as `HikCentralAPI.add_person`
builds it (constant fields `gender`, `fingerPrint`, `cards`,
`residentRoomNo`, `residentFloorNo` omitted as literals). -/
structure AddData where
  personCode : Option String
  personFamilyName : String
  personGivenName : String
  orgIndexCode : String
  phoneNo : PStr
  email : PStr
  faceData : String
  beginTime : String
  endTime : String
deriving DecidableEq, Repr

/-- The payload of `POST person/single/update` as
`HikCentralAPI.update_person` builds it. -/
structure UpdateData where
  personId : String
  personCode : Option String
  personFamilyName : String
  personGivenName : String
  orgIndexCode : String
  phoneNo : PStr
  email : PStr
  beginTime : String
  endTime : String
deriving DecidableEq, Repr

/-- One remote directory call issued through the signed client. -/
inductive RCall
  | addPerson (d : AddData)
  | updatePerson (d : UpdateData)
  | deletePersonFull (personId : String)
  | addToPrivilegeGroup (personId : String)
deriving DecidableEq, Repr

/-- Whether a remote call is a person-create. -/
def RCall.isAddPerson : RCall → Bool
  | .addPerson _ => true
  | _ => false

/-- Whether a remote call is an update. -/
def RCall.isUpdatePerson : RCall → Bool
  | .updatePerson _ => true
  | _ => false

/-- Whether a remote call is a hard person delete. -/
def RCall.isDeleteFull : RCall → Bool
  | .deletePersonFull _ => true
  | _ => false

/-- One `SupabaseAPI.update_worker_status` report: the fields actually put in
the POST body (`externalId`/`blockedReason` included only when truthy). -/
structure Report where
  workerId : Option String
  status : String
  externalId : Option String := none
  blockedReason : Option String := none
deriving DecidableEq, Repr

/-- The environment of one `process_worker` invocation: configuration and the
outcome each external interaction would have (download success, the person id
`add_person` returns, the `code == '0'` outcome of update/delete calls, the
wall-clock strings). -/
structure Env where
  tzOffset : String := "+02:00"
  orgIndexCode : Option String := none
  downloadFaceOk : Bool := true
  downloadIdOk : Bool := true
  faceBase64 : String := ""
  addPersonResult : Option String := none
  updateOk : Bool := true
  deleteOk : Bool := true
  privilegeOk : Bool := true
  now : String := ""
deriving DecidableEq, Repr

/-- `self.org_index_code or "1"`. -/
def orgCode (env : Env) : String := (livePid env.orgIndexCode).getD "1"

/-- `HikCentralAPI._format_time`: plain f-string interpolation of the date
value (so `None` prints as `"None"`); the `except` arm is unreachable because
the f-string cannot raise. -/
def formatTime (tz : String) (d : PStr) (start : Bool) : String :=
  d.toPy ++ (if start then "T00:00:00" else "T23:59:59") ++ tz

/-- Local cache path for a worker's face image (`FACES_DIR`-relative). -/
def facePathOf (w : WorkerPayload) : String :=
  "images/faces/" ++ (w.id.getD "None") ++ "_face.jpg"

/-- Local cache path for a worker's id-card image. -/
def idCardPathOf (w : WorkerPayload) : String :=
  "images/id_cards/" ++ (w.id.getD "None") ++ "_id.jpg"

/-- The name-splitting and payload assembly of `HikCentralAPI.add_person`
(lines before the request): `AttributeError` when `fullName` is `None`,
placeholder `"Unknown"` for a missing family name and for a given name when
the name has fewer than two tokens. -/
def buildAddData (env : Env) (w : WorkerPayload) (face : String) :
    Except PyErr AddData :=
  match w.fullName with
  | none => .error .attributeError
  | some nm =>
    let parts := pySplit nm
    .ok
      { personCode := w.nationalIdNumber
        personFamilyName := (parts.getLast?).getD "Unknown"
        personGivenName :=
          if 1 < parts.length then " ".intercalate parts.dropLast else "Unknown"
        orgIndexCode := orgCode env
        phoneNo := w.delegatedUserMobile.getD (.pstr "")
        email := w.delegatedUserEmail.getD (.pstr "")
        faceData := face
        beginTime := formatTime env.tzOffset (w.validFrom.getD (.pstr "2025-01-01")) true
        endTime := formatTime env.tzOffset (w.validTo.getD (.pstr "2035-12-31")) false }

/-- The `person/single/update` payload for a known full-name string `nm`. -/
def updateDataStr (env : Env) (w : WorkerPayload) (pid : String)
    (beginDate endDate : PStr) (nm : String) : UpdateData :=
  let parts := pySplit nm
  { personId := pid
    personCode := w.nationalIdNumber
    personFamilyName := (parts.getLast?).getD ""
    personGivenName :=
      if 1 < parts.length then " ".intercalate parts.dropLast else ""
    orgIndexCode := orgCode env
    phoneNo := w.delegatedUserMobile.getD (.pstr "")
    email := w.delegatedUserEmail.getD (.pstr "")
    beginTime := formatTime env.tzOffset beginDate true
    endTime := formatTime env.tzOffset endDate false }

/-- The payload assembly of `HikCentralAPI.update_person`: same split as the
create payload, but the fallbacks are empty strings, and the validity window
is the already-merged pair handed in by the controller. -/
def buildUpdateData (env : Env) (w : WorkerPayload) (pid : String)
    (beginDate endDate : PStr) : Except PyErr UpdateData :=
  match w.fullName with
  | none => .error .attributeError
  | some nm => .ok (updateDataStr env w pid beginDate endDate nm)

/-! ## `SyncController.process_worker` -/

/-- The observable outcome of one `process_worker` call: the ledger after it,
the remote directory calls issued, the upstream status reports sent, and the
exception it raised, if any (side effects before the raise are kept). -/
structure PwOut where
  db : List WorkerRecord
  calls : List RCall
  reports : List Report
  err : Option PyErr := none
deriving DecidableEq, Repr

/-- The `if blocked: if existing_by_nat:` block of `process_worker`: already
tombstoned → mark blocked and report; live remote id → hard delete (ledger and
report only on success); otherwise mark the existing record blocked (the
`or add_worker` fallback runs only when no record matched) and report. -/
def blockedStep (env : Env) (db : List WorkerRecord) (w : WorkerPayload)
    (ex : WorkerRecord) : PwOut :=
  if ex.hikcentral_deleted.getD false then
    { db := (updateByNationalId
        (fun r => { r with blocked := true, blocked_at := some env.now })
        db w.nationalIdNumber).1
      calls := []
      reports := [{ workerId := w.id, status := "blocked",
                    externalId := livePid ex.hikcentral_id }] }
  else
    match livePid ex.hikcentral_id with
    | some pid =>
      if env.deleteOk then
        { db := (updateByNationalId
            (fun r => { r with blocked := true, blocked_at := some env.now,
                               hikcentral_deleted := some true })
            db w.nationalIdNumber).1
          calls := [.deletePersonFull pid]
          reports := [{ workerId := w.id, status := "blocked",
                        externalId := some pid }] }
      else
        { db := db, calls := [.deletePersonFull pid], reports := [] }
    | none =>
      let up := updateByNationalId
        (fun r => { r with blocked := true, blocked_at := some env.now })
        db w.nationalIdNumber
      let db'' :=
        if up.2 then up.1
        else up.1 ++ [{ id := w.id, nationalIdNumber := w.nationalIdNumber,
                        fullName := w.fullName, status := some "blocked",
                        blocked := true, hikcentral_deleted := some false,
                        created_at := some env.now }]
      { db := db'', calls := [],
        reports := [{ workerId := w.id, status := "blocked" }] }

/-- The dict of ledger updates `process_worker` merges into the existing
record after a successful remote update. -/
def mergedLedgerUpdate (env : Env) (w : WorkerPayload)
    (mergedBegin mergedEnd : PStr) (r : WorkerRecord) : WorkerRecord :=
  { r with fullName := w.fullName, status := some "approved", blocked := false,
           hikcentral_deleted := some false,
           face_path := some (facePathOf w),
           id_card_path := some (idCardPathOf w),
           validFrom := some mergedBegin, validTo := some mergedEnd,
           updated_at := some env.now }

/-- The update arm of `process_worker` (ledger entry with a live remote id):
window lookup with event-mode-aware defaults, Python `min`/`max` merge (which
raises `TypeError` on `None` values, before any remote call), then
`update_person`; ledger write and upstream report only on success. -/
def updateBranch (env : Env) (db : List WorkerRecord) (w : WorkerPayload)
    (ex : WorkerRecord) (pid : String) : PwOut :=
  let existingBegin := ex.validFrom.getD (w.validFrom.getD (.pstr "2025-01-01"))
  let existingEnd := ex.validTo.getD (w.validTo.getD (.pstr "2035-12-31"))
  let incomingBegin := w.validFrom.getD existingBegin
  let incomingEnd := w.validTo.getD existingEnd
  match pyMin existingBegin incomingBegin with
  | .error e => { db := db, calls := [], reports := [], err := some e }
  | .ok mergedBegin =>
    match pyMax existingEnd incomingEnd with
    | .error e => { db := db, calls := [], reports := [], err := some e }
    | .ok mergedEnd =>
      match buildUpdateData env w pid mergedBegin mergedEnd with
      | .error e => { db := db, calls := [], reports := [], err := some e }
      | .ok d =>
        if env.updateOk then
          { db := (updateByNationalId
              (mergedLedgerUpdate env w mergedBegin mergedEnd)
              db w.nationalIdNumber).1
            calls := [.updatePerson d]
            reports := [{ workerId := w.id, status := "approved",
                          externalId := some pid }] }
        else
          { db := db, calls := [.updatePerson d], reports := [] }

/-- The create arm of `process_worker`: `add_person` (payload built before the
request, so a name error raises first), then, on a truthy returned person id,
the best-effort privilege-group call, a fresh ledger record (with the
event-mode `None` window stored as-is), and the `approved` report. -/
def addBranch (env : Env) (db : List WorkerRecord) (w : WorkerPayload) : PwOut :=
  match buildAddData env w env.faceBase64 with
  | .error e => { db := db, calls := [], reports := [], err := some e }
  | .ok d =>
    match livePid env.addPersonResult with
    | some pid =>
      { db := db ++ [{ id := w.id, nationalIdNumber := w.nationalIdNumber,
                       fullName := w.fullName, hikcentral_id := some pid,
                       status := some "approved", blocked := false,
                       hikcentral_deleted := some false,
                       face_path := some (facePathOf w),
                       id_card_path := some (idCardPathOf w),
                       validFrom := some (w.validFrom.getD (.pstr "2025-01-01")),
                       validTo := some (w.validTo.getD (.pstr "2035-12-31")),
                       created_at := some env.now }]
        calls := [.addPerson d, .addToPrivilegeGroup pid]
        reports := [{ workerId := w.id, status := "approved",
                      externalId := some pid }] }
    | none =>
      { db := db, calls := [.addPerson d], reports := [] }

/-- The download-then-provision tail of `process_worker` (everything after the
`if blocked:` block): failed downloads skip the worker silently; a ledger
entry with a live remote id routes to the update arm, anything else to the
create arm. -/
def provisionStep (env : Env) (db : List WorkerRecord) (w : WorkerPayload)
    (existing : Option WorkerRecord) : PwOut :=
  if !env.downloadFaceOk then { db := db, calls := [], reports := [] }
  else if !env.downloadIdOk then { db := db, calls := [], reports := [] }
  else
    match existing with
    | some ex =>
      match livePid ex.hikcentral_id with
      | some pid => updateBranch env db w ex pid
      | none => addBranch env db w
    | none => addBranch env db w

/-- `SyncController.process_worker`. Note the source's `if blocked:` block
handles only the case where a ledger record exists; a blocked worker *without*
a ledger entry falls through into the provisioning tail. -/
def processWorker (env : Env) (db : List WorkerRecord) (w : WorkerPayload) :
    PwOut :=
  let existing := getByNationalId db w.nationalIdNumber
  if w.blocked then
    match existing with
    | some ex => blockedStep env db w ex
    | none => provisionStep env db w none
  else provisionStep env db w existing

/-! ## `SyncController.handle_event` and the sync pass -/

/-- Aggregated outcome of handling one event or a batch. -/
structure SOut where
  db : List WorkerRecord
  calls : List RCall
  reports : List Report
  err : Option PyErr := none
deriving DecidableEq, Repr

/-- The event types routed to `process_worker` with `blocked` forced false. -/
def createUnblockTypes : List String :=
  ["worker.created", "workers.bulk_created", "worker.unblocked",
   "unit.workers_unblocked"]

/-- The event types routed to `process_worker` with `blocked` forced true. -/
def blockTypes : List String := ["worker.blocked", "unit.workers_blocked"]

/-- The deletion/revocation event types. -/
def deletionTypes : List String :=
  ["worker.deleted", "user.deleted_workers_deleted",
   "user.expired_workers_deleted", "worker.revoked"]

/-- The per-payload loop of `handle_event`'s first two branches: map, force
the `blocked` flag, `process_worker`; an exception aborts the remaining
payloads of the *same event* (effects so far kept). -/
def runWorkers (env : Env) (forcedBlocked : Bool) :
    List WorkerRecord → List EventWorker → SOut
  | db, [] => { db := db, calls := [], reports := [] }
  | db, ew :: rest =>
    let o := processWorker env db { mapEventWorker ew with blocked := forcedBlocked }
    match o.err with
    | some e => { db := o.db, calls := o.calls, reports := o.reports, err := some e }
    | none =>
      let k := runWorkers env forcedBlocked o.db rest
      { db := k.db, calls := o.calls ++ k.calls,
        reports := o.reports ++ k.reports, err := k.err }

/-- One payload of a deletion-type event: look the worker up by natural
identity number (`w.get('nationalIdNumber') or ''`), and when a record with a
truthy remote id exists, hard-delete remotely (result unchecked) and mark the
record blocked and tombstoned. -/
def deletionStep (env : Env) (db : List WorkerRecord) (ew : EventWorker) :
    List WorkerRecord × List RCall :=
  let w := mapEventWorker ew
  let key := (livePid w.nationalIdNumber).getD ""
  match getByNationalId db (some key) with
  | some ex =>
    match livePid ex.hikcentral_id with
    | some pid =>
      ((updateByNationalId
          (fun r => { r with blocked := true, hikcentral_deleted := some true,
                             updated_at := some env.now })
          db w.nationalIdNumber).1,
       [.deletePersonFull pid])
    | none => (db, [])
  | none => (db, [])

/-- The deletion branch's loop over a deletion event's payloads. -/
def runDeletionSteps (env : Env) :
    List WorkerRecord → List EventWorker → List WorkerRecord × List RCall
  | db, [] => (db, [])
  | db, ew :: rest =>
    let o := deletionStep env db ew
    let k := runDeletionSteps env o.1 rest
    (k.1, o.2 ++ k.2)

/-- `SyncController.handle_event`: dispatch on the event type; unknown types
are ignored. -/
def handleEvent (env : Env) (db : List WorkerRecord) (e : Event) : SOut :=
  if e.type ∈ createUnblockTypes then runWorkers env false db e.workers
  else if e.type ∈ blockTypes then runWorkers env true db e.workers
  else if e.type ∈ deletionTypes then
    let k := runDeletionSteps env db e.workers
    { db := k.1, calls := k.2, reports := [] }
  else { db := db, calls := [], reports := [] }

/-- Repeated independent `process_worker` passes over the same ledger (one
payload per pass), collecting every remote call issued. -/
def processSeq (env : Env) :
    List WorkerRecord → List WorkerPayload → List WorkerRecord × List RCall
  | db, [] => (db, [])
  | db, w :: ws =>
    let o := processWorker env db w
    let k := processSeq env o.db ws
    (k.1, o.calls ++ k.2)

/-- The mutable pass status `SyncController` exposes to the dashboard. -/
structure SyncState where
  db : List WorkerRecord := []
  last_sync_started : Option String := none
  last_sync_finished : Option String := none
  last_sync_error : Option String := none
deriving DecidableEq, Repr

/-- The body `SupabaseAPI.get_pending_events` returns on HTTP success. -/
structure FetchResp where
  success : Bool := false
  events : List Event := []
deriving DecidableEq, Repr

/-- The environment of one sync pass: the fetch outcome (`Except` error =
request exception) and the per-item environment. -/
structure SyncEnv where
  fetch : Except String FetchResp
  penv : Env := {}
  startedAt : String := ""
  finishedAt : String := ""
deriving Repr

/-- `SupabaseAPI.get_pending_events`: its own `try/except` swallows every
request failure into `{'success': False, 'events': []}` — it never raises. -/
def getPendingEvents (se : SyncEnv) : FetchResp :=
  match se.fetch with
  | .ok d => d
  | .error _ => { success := false, events := [] }

/-- A completed sync pass: final status plus everything sent outward. -/
structure PassOut where
  state : SyncState
  calls : List RCall
  reports : List Report
deriving DecidableEq, Repr

/-- The per-event loop of `SyncController.sync`: each `handle_event` runs in
its own `try/except`, so one event's exception never stops the rest. -/
def runEvents (env : Env) :
    List WorkerRecord → List Event → List WorkerRecord × List RCall × List Report
  | db, [] => (db, [], [])
  | db, e :: es =>
    let o := handleEvent env db e
    let k := runEvents env o.db es
    (k.1, o.calls ++ k.2.1, o.reports ++ k.2.2)

/-- `SyncController.sync`: stamp the start time, fetch (never raises), return
early — finish time and last error untouched — when the event list is empty
(including every fetch-failure case), otherwise process all events and clear
`last_sync_error`. Nothing inside the outer `try` can raise, so its `except`
arm (the only writer of a non-`None` `last_sync_error`) is unreachable. -/
def syncPass (se : SyncEnv) (st : SyncState) : PassOut :=
  let st1 := { st with last_sync_started := some se.startedAt }
  let events := (getPendingEvents se).events
  if events.isEmpty then { state := st1, calls := [], reports := [] }
  else
    let k := runEvents se.penv st1.db events
    { state := { st1 with db := k.1, last_sync_finished := some se.finishedAt,
                          last_sync_error := none }
      calls := k.2.1
      reports := k.2.2 }

/-! ## `HikCentralAPI._make_request` -/

/-- The response dict of a directory call. -/
structure HikResponse where
  code : String
  msg : String := ""
  data : Option String := none
deriving DecidableEq, Repr

/-- What the single HTTP attempt of `_make_request` can come to: an exception
anywhere in the `try` (transport failure, timeout, `raise_for_status` on an
HTTP error, JSON decode), or a parsed response body. -/
inductive HttpOutcome
  | transportError (msg : String)
  | response (r : HikResponse)
deriving DecidableEq, Repr

/-- One wire attempt, with the timeout it was issued under. -/
structure Attempt where
  endpoint : String
  timeoutSeconds : Nat
deriving DecidableEq, Repr

/-- The literal `timeout=30` of `requests.post` in `_make_request`. -/
def requestTimeoutSeconds : Nat := 30

/-- `HikCentralAPI._make_request`: exactly one attempt, bounded by the 30 s
timeout; any exception is caught and becomes the uniform failure dict
`{'code': '-1', 'msg': str(e)}`; a parsed response is returned as-is whether
or not its code is `'0'`. Totality of this function is the no-raise guarantee. -/
def makeRequest (endpoint : String) (outcome : HttpOutcome) :
    List Attempt × HikResponse :=
  ([{ endpoint := endpoint, timeoutSeconds := requestTimeoutSeconds }],
   match outcome with
   | .transportError m => { code := "-1", msg := m }
   | .response r => r)

/-! ## Helper lemmas -/

/-- An MD5 digest is never the empty byte string (it is 16 bytes). -/
theorem md5_ne_nil (msg : List Nat) : md5 msg ≠ [] := by
  simp [md5, le32]

/-- Base64 of a non-empty byte string yields at least one character. -/
theorem base64Chunks_ne_nil (bs : List Nat) (h : bs ≠ []) :
    base64Chunks bs ≠ [] := by
  rcases bs with _ | ⟨b0, _ | ⟨b1, _ | ⟨b2, rest⟩⟩⟩
  · exact absurd rfl h
  · simp [base64Chunks]
  · simp [base64Chunks]
  · simp [base64Chunks]

/-- Base64 of a non-empty byte string is a non-empty string. -/
theorem base64Encode_ne_empty (bs : List Nat) (h : bs ≠ []) :
    base64Encode bs ≠ "" := by
  intro he
  have hd : base64Chunks bs = [] := by
    have h2 := congrArg String.data he
    simpa [base64Encode] using h2
  exact base64Chunks_ne_nil bs h hd

/-- Python's `min` on strings is `min` of the lexicographic linear order. -/
theorem pyMinStr_eq_min (s t : String) : pyMinStr s t = min s t := by
  rcases le_or_lt s t with h | h
  · simp [pyMinStr, min_eq_left h, not_lt.mpr h]
  · simp [pyMinStr, h, min_eq_right h.le]

/-- Python's `max` on strings is `max` of the lexicographic linear order. -/
theorem pyMaxStr_eq_max (s t : String) : pyMaxStr s t = max s t := by
  rcases le_or_lt t s with h | h
  · simp [pyMaxStr, max_eq_left h, not_lt.mpr h]
  · simp [pyMaxStr, h, max_eq_right h.le]

/-- Updating the first record matching a key rewrites exactly the record the
lookup returns, provided the update leaves the key field unchanged. -/
theorem getByNationalId_update (f : WorkerRecord → WorkerRecord)
    (hf : ∀ r, (f r).nationalIdNumber = r.nationalIdNumber)
    (db : List WorkerRecord) (key : Option String) :
    getByNationalId (updateByNationalId f db key).1 key =
      (getByNationalId db key).map f := by
  induction db with
  | nil => simp [getByNationalId, updateByNationalId]
  | cons r rs ih =>
    by_cases hr : r.nationalIdNumber = key
    · simp [getByNationalId, updateByNationalId, hr, hf r]
    · simp [getByNationalId, updateByNationalId, hr, ih]

/-! ## Claim theorems -/

/-- C1: for every HTTP method, Accept value, Content-Type value, signing URI,
body string, timestamp string and nonce string, the signature
`_calculate_signature` computes equals
`base64(HMAC-SHA256(appSecret, stringToSign))`, where the string-to-sign is
the newline-join of method, Accept, `Content-MD5 = base64(md5(body-bytes))`
included iff the body is non-empty, Content-Type, `x-ca-key:`+appKey,
`x-ca-nonce:`+nonce, `x-ca-timestamp:`+timestamp and the signing URI, in that
order; and the computation is deterministic. -/
theorem signature_equals_spec_hmac (appKey appSecret method accept contentType
    uri body timestamp nonce : String) :
    (calculateSignature appKey appSecret method accept contentType uri body
        timestamp nonce).1 =
      base64Encode (hmacSha256 (utf8Encode appSecret)
        (utf8Encode (stringToSignSpec appKey method accept contentType uri body
          timestamp nonce))) ∧
    calculateSignature appKey appSecret method accept contentType uri body
        timestamp nonce =
      calculateSignature appKey appSecret method accept contentType uri body
        timestamp nonce := by
  refine ⟨?_, rfl⟩
  by_cases hb : body = ""
  · simp [calculateSignature, stringToSignSpec, hb]
  · have hmd : base64Encode (md5 (utf8Encode body)) ≠ "" :=
      base64Encode_ne_empty _ (md5_ne_nil _)
    simp [calculateSignature, stringToSignSpec, hb, hmd]

/-- C7: every remote directory call is a single attempt (no automatic retry)
bounded by the 30-second timeout; the client never raises (`makeRequest` is
total): a transport failure, timeout or HTTP-level error becomes the uniform
failure response with non-zero code `'-1'`, and a parsed directory response is
returned as-is, including when its code is non-zero. -/
theorem make_request_single_attempt_uniform_failure (endpoint m : String)
    (outcome : HttpOutcome) (r : HikResponse) :
    (makeRequest endpoint outcome).1 =
      [{ endpoint := endpoint, timeoutSeconds := 30 }] ∧
    (makeRequest endpoint (.transportError m)).2 =
      { code := "-1", msg := m } ∧
    (makeRequest endpoint (.transportError m)).2.code ≠ "0" ∧
    (makeRequest endpoint (.response r)).2 = r := by
  refine ⟨rfl, rfl, ?_, rfl⟩
  simp [makeRequest]

/-- `_format_time` on a `None` start date, with the prefix fused. -/
theorem formatTime_pnull_start (tz : String) :
    formatTime tz .pnull true = "NoneT00:00:00" ++ tz := by
  show "None" ++ ("T00:00:00" ++ tz) = "NoneT00:00:00" ++ tz
  rw [← String.append_assoc]
  exact congrArg (fun p => p ++ tz) rfl

/-- `_format_time` on a `None` end date, with the prefix fused. -/
theorem formatTime_pnull_end (tz : String) :
    formatTime tz .pnull false = "NoneT23:59:59" ++ tz := by
  show "None" ++ ("T23:59:59" ++ tz) = "NoneT23:59:59" ++ tz
  rw [← String.append_assoc]
  exact congrArg (fun p => p ++ tz) rfl

/-- C10: `_map_event_worker` stores `validFrom`/`validTo` as keys present with
value `None`, so the creation-time lookup defaults `'2025-01-01'` and
`'2035-12-31'` are never taken in event mode; a first-time provisioning of an
event worker therefore issues a person-create whose `beginTime` is the string
`"NoneT00:00:00<tz>"` and whose `endTime` is `"NoneT23:59:59<tz>"`. -/
theorem event_mode_null_window_provisioning (ew : EventWorker) (env : Env)
    (db : List WorkerRecord) (nm : String)
    (hname : ew.fullName = some nm)
    (hface : env.downloadFaceOk = true)
    (hid : env.downloadIdOk = true)
    (hmiss : getByNationalId db (mapEventWorker ew).nationalIdNumber = none) :
    (mapEventWorker ew).validFrom = some .pnull ∧
    (mapEventWorker ew).validTo = some .pnull ∧
    ∃ d, (processWorker env db
        { mapEventWorker ew with blocked := false }).calls.head? =
          some (.addPerson d) ∧
      d.beginTime = "NoneT00:00:00" ++ env.tzOffset ∧
      d.endTime = "NoneT23:59:59" ++ env.tzOffset := by
  refine ⟨rfl, rfl, ?_⟩
  have hget : getByNationalId db
      ({ mapEventWorker ew with blocked := false } : WorkerPayload).nationalIdNumber
      = none := hmiss
  simp only [processWorker, hget, provisionStep, hface, hid, Bool.not_true,
    Bool.false_eq_true, if_false, addBranch, buildAddData]
  simp only [mapEventWorker, hname]
  cases hres : livePid env.addPersonResult with
  | none =>
    simp only [hres]
    exact ⟨_, rfl, formatTime_pnull_start env.tzOffset,
      formatTime_pnull_end env.tzOffset⟩
  | some pid =>
    simp only [hres]
    exact ⟨_, rfl, formatTime_pnull_start env.tzOffset,
      formatTime_pnull_end env.tzOffset⟩

/-- Processing a blocked payload whose ledger entry is tombstoned only stamps
the local record and reports; no remote call. -/
theorem processWorker_blocked_tombstoned (env : Env) (db : List WorkerRecord)
    (w : WorkerPayload) (ex : WorkerRecord)
    (hb : w.blocked = true)
    (hget : getByNationalId db w.nationalIdNumber = some ex)
    (hts : ex.hikcentral_deleted = some true) :
    processWorker env db w =
      { db := (updateByNationalId
          (fun r => { r with blocked := true, blocked_at := some env.now })
          db w.nationalIdNumber).1
        calls := []
        reports := [{ workerId := w.id, status := "blocked",
                      externalId := livePid ex.hikcentral_id }] } := by
  simp [processWorker, hb, hget, blockedStep, hts]

/-- Across any sequence of blocked reprocessings of the same natural identity
number starting from a tombstoned ledger entry, no remote call at all is
issued, and the entry stays tombstoned. -/
theorem processSeq_blocked_tombstoned (env : Env) (key : Option String) :
    ∀ (ws : List WorkerPayload) (db : List WorkerRecord) (ex : WorkerRecord),
    getByNationalId db key = some ex →
    ex.hikcentral_deleted = some true →
    (∀ w' ∈ ws, w'.blocked = true ∧ w'.nationalIdNumber = key) →
    (processSeq env db ws).2 = [] := by
  intro ws
  induction ws with
  | nil => intro db ex _ _ _; simp [processSeq]
  | cons w rest ih =>
    intro db ex hget hts hall
    obtain ⟨hb, hkey⟩ := hall w (by simp)
    have hstep := processWorker_blocked_tombstoned env db w ex hb
      (by rw [hkey]; exact hget) hts
    have hnext : getByNationalId (processWorker env db w).db key =
        some { ex with blocked := true, blocked_at := some env.now } := by
      rw [hstep]
      simp only [hkey]
      rw [getByNationalId_update
        (fun r => { r with blocked := true, blocked_at := some env.now })
        (fun r => rfl) db key, hget]
      rfl
    have htail := ih (processWorker env db w).db
      { ex with blocked := true, blocked_at := some env.now } hnext hts
      (fun w' hmem => hall w' (by simp [hmem]))
    simp only [processSeq]
    rw [htail, hstep]
    rfl

/-- C4: processing a blocked worker whose ledger entry is already tombstoned
reports upstream status `blocked` and issues no remote call — in particular no
delete — and the same holds across any further sequence of blocked
reprocessings of that identity: a blocked worker is never remote-deleted
twice. -/
theorem tombstoned_blocked_no_second_delete (env : Env) (db : List WorkerRecord)
    (w : WorkerPayload) (ws : List WorkerPayload) (ex : WorkerRecord)
    (hb : w.blocked = true)
    (hget : getByNationalId db w.nationalIdNumber = some ex)
    (hts : ex.hikcentral_deleted = some true)
    (hws : ∀ w' ∈ ws, w'.blocked = true ∧ w'.nationalIdNumber = w.nationalIdNumber) :
    (processWorker env db w).calls = [] ∧
    (processWorker env db w).reports =
      [{ workerId := w.id, status := "blocked",
         externalId := livePid ex.hikcentral_id }] ∧
    (processSeq env db (w :: ws)).2 = [] := by
  have hstep := processWorker_blocked_tombstoned env db w ex hb hget hts
  refine ⟨by rw [hstep], by rw [hstep], ?_⟩
  exact processSeq_blocked_tombstoned env w.nationalIdNumber (w :: ws) db ex hget
    hts (by
      intro w' hmem
      rcases List.mem_cons.mp hmem with h | h
      · subst h; exact ⟨hb, rfl⟩
      · exact hws w' h)

/-- The deletion branch's loop composes over list append. -/
theorem runDeletionSteps_append (env : Env) (l1 l2 : List EventWorker) :
    ∀ db, runDeletionSteps env db (l1 ++ l2) =
      ((runDeletionSteps env (runDeletionSteps env db l1).1 l2).1,
       (runDeletionSteps env db l1).2 ++
         (runDeletionSteps env (runDeletionSteps env db l1).1 l2).2) := by
  induction l1 with
  | nil => intro db; simp [runDeletionSteps]
  | cons ew rest ih =>
    intro db
    show runDeletionSteps env db (ew :: (rest ++ l2)) = _
    simp only [runDeletionSteps]
    rw [ih ((deletionStep env db ew).1)]
    simp [List.append_assoc]

/-- One deletion-event payload with a matching, remotely-live ledger entry:
the hard delete is issued, and the first matching record is marked blocked and
tombstoned. -/
theorem deletionStep_live (env : Env) (db : List WorkerRecord)
    (ew : EventWorker) (ex : WorkerRecord) (nid pid : String)
    (hnid : ew.nationalIdNumber = some nid) (hne : nid ≠ "")
    (hget : getByNationalId db (some nid) = some ex)
    (hpid : livePid ex.hikcentral_id = some pid) :
    deletionStep env db ew =
      ((updateByNationalId
          (fun r => { r with blocked := true, hikcentral_deleted := some true,
                             updated_at := some env.now })
          db (some nid)).1,
       [.deletePersonFull pid]) := by
  have hkey : livePid (some nid) = some nid := by simp [livePid, hne]
  simp [deletionStep, mapEventWorker, hnid, hkey, hget, hpid]

/-- C6: for a deletion/revocation-type lifecycle event, each embedded worker
payload whose natural identity number has a ledger entry with a live remote
person id (at the time that payload is handled) triggers a hard remote person
delete, and that ledger entry is marked blocked and tombstoned with its remote
person id retained — regardless of the entry's previous blocked or tombstone
state, and keyed purely by natural identity number (no assumption relates the
payload's upstream worker id to the entry's). -/
theorem deletion_event_hard_delete_tombstone (env : Env)
    (db : List WorkerRecord) (e : Event) (ws1 ws2 : List EventWorker)
    (ew : EventWorker) (ex : WorkerRecord) (nid pid : String)
    (htype : e.type ∈ deletionTypes)
    (hws : e.workers = ws1 ++ ew :: ws2)
    (hnid : ew.nationalIdNumber = some nid) (hne : nid ≠ "")
    (hget : getByNationalId (runDeletionSteps env db ws1).1 (some nid) = some ex)
    (hpid : livePid ex.hikcentral_id = some pid) :
    RCall.deletePersonFull pid ∈ (handleEvent env db e).calls ∧
    getByNationalId (deletionStep env (runDeletionSteps env db ws1).1 ew).1
        (some nid) =
      some { ex with blocked := true, hikcentral_deleted := some true,
                     updated_at := some env.now } := by
  have hdis : ¬ e.type ∈ createUnblockTypes ∧ ¬ e.type ∈ blockTypes := by
    have h := htype
    simp only [deletionTypes, List.mem_cons, List.mem_singleton,
      List.not_mem_nil, or_false] at h
    rcases h with h | h | h | h <;> rw [h] <;> exact ⟨by decide, by decide⟩
  have hhe : (handleEvent env db e).calls =
      (runDeletionSteps env db e.workers).2 := by
    simp [handleEvent, hdis.1, hdis.2, htype]
  have hds := deletionStep_live env (runDeletionSteps env db ws1).1 ew ex nid pid
    hnid hne hget hpid
  constructor
  · rw [hhe, hws, runDeletionSteps_append]
    simp only [List.mem_append]
    refine Or.inr ?_
    simp [runDeletionSteps, hds]
  · rw [hds]
    rw [getByNationalId_update
      (fun r => { r with blocked := true, hikcentral_deleted := some true,
                         updated_at := some env.now })
      (fun r => rfl) _ (some nid), hget]
    rfl

/-- `min a a = a` for Python string `min`. -/
theorem pyMinStr_self (a : String) : pyMinStr a a = a := by simp [pyMinStr]

/-- `max a a = a` for Python string `max`. -/
theorem pyMaxStr_self (a : String) : pyMaxStr a a = a := by simp [pyMaxStr]

/-- Re-merging the earlier bound into an already-merged minimum is absorbed. -/
theorem pyMinStr_left_absorb (a c : String) :
    pyMinStr (pyMinStr a c) a = pyMinStr a c := by
  simp only [pyMinStr_eq_min]
  exact min_eq_left (min_le_left a c)

/-- Re-merging the later bound into an already-merged minimum is absorbed. -/
theorem pyMinStr_right_absorb (a c : String) :
    pyMinStr (pyMinStr a c) c = pyMinStr a c := by
  simp only [pyMinStr_eq_min]
  exact min_eq_left (min_le_right a c)

/-- Re-merging the earlier bound into an already-merged maximum is absorbed. -/
theorem pyMaxStr_left_absorb (b d : String) :
    pyMaxStr (pyMaxStr b d) b = pyMaxStr b d := by
  simp only [pyMaxStr_eq_max]
  exact max_eq_left (le_max_left b d)

/-- Re-merging the later bound into an already-merged maximum is absorbed. -/
theorem pyMaxStr_right_absorb (b d : String) :
    pyMaxStr (pyMaxStr b d) d = pyMaxStr b d := by
  simp only [pyMaxStr_eq_max]
  exact max_eq_left (le_max_right b d)

/-- Characterization of `process_worker` on a non-blocked payload whose ledger
entry has a live remote id, when every validity value involved is a string and
the environment lets the downloads and the remote update succeed: one
`updatePerson` call, the `min`/`max`-merged window written into the first
matching ledger record, and an `approved` report. -/
theorem processWorker_update_strings (env : Env) (db : List WorkerRecord)
    (w : WorkerPayload) (ex : WorkerRecord) (pid : String) (a b c d nm : String)
    (h1 : env.downloadFaceOk = true) (h2 : env.downloadIdOk = true)
    (h3 : env.updateOk = true)
    (hb : w.blocked = false)
    (hnm : w.fullName = some nm)
    (hget : getByNationalId db w.nationalIdNumber = some ex)
    (hpid : livePid ex.hikcentral_id = some pid)
    (hvf : ex.validFrom = some (.pstr a)) (hvt : ex.validTo = some (.pstr b))
    (hwf : w.validFrom = some (.pstr c)) (hwt : w.validTo = some (.pstr d)) :
    processWorker env db w =
      { db := (updateByNationalId
          (mergedLedgerUpdate env w (.pstr (pyMinStr a c)) (.pstr (pyMaxStr b d)))
          db w.nationalIdNumber).1
        calls := [.updatePerson (updateDataStr env w pid (.pstr (pyMinStr a c))
          (.pstr (pyMaxStr b d)) nm)]
        reports := [{ workerId := w.id, status := "approved",
                      externalId := some pid }] } := by
  simp [processWorker, hb, hget, provisionStep, h1, h2, hpid, updateBranch,
    hvf, hvt, hwf, hwt, pyMin, pyMax, buildUpdateData, hnm, h3]

/-- The ledger entry after a string-window update pass. -/
theorem getByNationalId_after_merge (env : Env) (db : List WorkerRecord)
    (w : WorkerPayload) (ex : WorkerRecord) (mb me : PStr)
    (hget : getByNationalId db w.nationalIdNumber = some ex) :
    getByNationalId
        (updateByNationalId (mergedLedgerUpdate env w mb me) db
          w.nationalIdNumber).1 w.nationalIdNumber =
      some (mergedLedgerUpdate env w mb me ex) := by
  rw [getByNationalId_update (mergedLedgerUpdate env w mb me) (fun r => rfl)
    db w.nationalIdNumber, hget]
  rfl

/-- C5: for a non-blocked worker whose ledger entry has a live remote person
id and whose existing and incoming validity bounds are all strings, one pass
merges the window to `[min existing incoming, max existing incoming]` and
clears the tombstone flag; and starting from the entry's window `[A,B]`,
processing `[A,B]` then `[C,D]` leaves the same ledger window
`[min A C, max B D]` as processing `[C,D]` then `[A,B]`. -/
theorem window_merge_commutes (env : Env) (db : List WorkerRecord)
    (w1 w2 : WorkerPayload) (ex : WorkerRecord) (pid : String)
    (A B C D nm1 nm2 : String)
    (h1 : env.downloadFaceOk = true) (h2 : env.downloadIdOk = true)
    (h3 : env.updateOk = true)
    (hb1 : w1.blocked = false) (hb2 : w2.blocked = false)
    (hk : w2.nationalIdNumber = w1.nationalIdNumber)
    (hnm1 : w1.fullName = some nm1) (hnm2 : w2.fullName = some nm2)
    (hget : getByNationalId db w1.nationalIdNumber = some ex)
    (hpid : livePid ex.hikcentral_id = some pid)
    (hvf : ex.validFrom = some (.pstr A)) (hvt : ex.validTo = some (.pstr B))
    (h1f : w1.validFrom = some (.pstr A)) (h1t : w1.validTo = some (.pstr B))
    (h2f : w2.validFrom = some (.pstr C)) (h2t : w2.validTo = some (.pstr D)) :
    (∃ e2, getByNationalId (processWorker env db w2).db w2.nationalIdNumber =
        some e2 ∧
      e2.validFrom = some (.pstr (min A C)) ∧
      e2.validTo = some (.pstr (max B D)) ∧
      e2.hikcentral_deleted = some false) ∧
    (∃ eP, getByNationalId
        (processWorker env (processWorker env db w1).db w2).db
        w2.nationalIdNumber = some eP ∧
      eP.validFrom = some (.pstr (min A C)) ∧
      eP.validTo = some (.pstr (max B D))) ∧
    (∃ eQ, getByNationalId
        (processWorker env (processWorker env db w2).db w1).db
        w1.nationalIdNumber = some eQ ∧
      eQ.validFrom = some (.pstr (min A C)) ∧
      eQ.validTo = some (.pstr (max B D))) := by
  have hget2 : getByNationalId db w2.nationalIdNumber = some ex := by
    rw [hk]; exact hget
  have s2 := processWorker_update_strings env db w2 ex pid A B C D nm2
    h1 h2 h3 hb2 hnm2 hget2 hpid hvf hvt h2f h2t
  have s1 := processWorker_update_strings env db w1 ex pid A B A B nm1
    h1 h2 h3 hb1 hnm1 hget hpid hvf hvt h1f h1t
  rw [pyMinStr_self, pyMaxStr_self] at s1
  refine ⟨?_, ?_, ?_⟩
  · refine ⟨mergedLedgerUpdate env w2 (.pstr (pyMinStr A C))
      (.pstr (pyMaxStr B D)) ex, ?_, ?_, ?_, rfl⟩
    · rw [s2]; exact getByNationalId_after_merge env db w2 ex _ _ hget2
    · simp [mergedLedgerUpdate, pyMinStr_eq_min]
    · simp [mergedLedgerUpdate, pyMaxStr_eq_max]
  · have hget_e1 : getByNationalId (processWorker env db w1).db
        w2.nationalIdNumber =
        some (mergedLedgerUpdate env w1 (.pstr A) (.pstr B) ex) := by
      rw [s1, hk]; exact getByNationalId_after_merge env db w1 ex _ _ hget
    have s12 := processWorker_update_strings env (processWorker env db w1).db
      w2 (mergedLedgerUpdate env w1 (.pstr A) (.pstr B) ex) pid A B C D nm2
      h1 h2 h3 hb2 hnm2 hget_e1 hpid rfl rfl h2f h2t
    refine ⟨mergedLedgerUpdate env w2 (.pstr (pyMinStr A C))
      (.pstr (pyMaxStr B D)) (mergedLedgerUpdate env w1 (.pstr A) (.pstr B) ex),
      ?_, ?_, ?_⟩
    · rw [s12]
      exact getByNationalId_after_merge env _ w2 _ _ _ hget_e1
    · simp [mergedLedgerUpdate, pyMinStr_eq_min]
    · simp [mergedLedgerUpdate, pyMaxStr_eq_max]
  · have hget_e2 : getByNationalId (processWorker env db w2).db
        w1.nationalIdNumber =
        some (mergedLedgerUpdate env w2 (.pstr (pyMinStr A C))
          (.pstr (pyMaxStr B D)) ex) := by
      rw [s2, ← hk]
      exact getByNationalId_after_merge env db w2 ex _ _ hget2
    have s21 := processWorker_update_strings env (processWorker env db w2).db
      w1 (mergedLedgerUpdate env w2 (.pstr (pyMinStr A C))
        (.pstr (pyMaxStr B D)) ex) pid (pyMinStr A C) (pyMaxStr B D) A B nm1
      h1 h2 h3 hb1 hnm1 hget_e2 hpid rfl rfl h1f h1t
    rw [pyMinStr_left_absorb, pyMaxStr_left_absorb] at s21
    refine ⟨mergedLedgerUpdate env w1 (.pstr (pyMinStr A C))
      (.pstr (pyMaxStr B D)) (mergedLedgerUpdate env w2 (.pstr (pyMinStr A C))
        (.pstr (pyMaxStr B D)) ex), ?_, ?_, ?_⟩
    · rw [s21]
      exact getByNationalId_after_merge env _ w1 _ _ _ hget_e2
    · simp [mergedLedgerUpdate, pyMinStr_eq_min]
    · simp [mergedLedgerUpdate, pyMaxStr_eq_max]

/-- A concrete event-mode environment: downloads succeed, the remote create
returns person id `P1`, the remote update would succeed. -/
def c2Env : Env := { addPersonResult := some "P1", now := "T1" }

/-- A concrete event-mode worker payload (so `validFrom`/`validTo` are present
with value `None`). -/
def c2Worker : WorkerPayload :=
  { mapEventWorker
      { workerId := some "W1", nationalIdNumber := some "N1",
        fullName := some "John Doe", facePhoto := some "u1",
        nationalIdImage := some "u2" } with
    blocked := false }

/-- C2 counterexample: after a first processing provisions the worker (ledger
entry with live remote id `P1`), reprocessing the identical payload does *not*
issue an update call — `min(None, None)` raises `TypeError` first — and no
remote call at all is made on the second pass. This refutes the claim that a
second processing of an unchanged worker with a live remote id always issues
an update call. -/
theorem replay_null_window_raises_type_error :
    (processWorker c2Env (processWorker c2Env [] c2Worker).db c2Worker).calls
        = [] ∧
    (processWorker c2Env (processWorker c2Env [] c2Worker).db c2Worker).err
        = some .typeError ∧
    (processWorker c2Env (processWorker c2Env [] c2Worker).db c2Worker).db
        = (processWorker c2Env [] c2Worker).db ∧
    (getByNationalId (processWorker c2Env [] c2Worker).db
        (some "N1")).map (fun r => r.hikcentral_id) = some (some "P1") := by
  decide

/-- C2 (amended): for a non-blocked worker whose natural identity number has a
ledger entry with a live remote person id, *provided the stored and incoming
validity values are strings* (in event mode they are `None` and the second
pass raises `TypeError` instead), processing the worker a second time with
unchanged fields issues exactly one update call and no person-create call, and
leaves the ledger entry with the same remote person id, status, blocked and
tombstone flags, and validity window as after the first processing. -/
theorem replay_update_idempotent (env : Env) (db : List WorkerRecord)
    (w : WorkerPayload) (ex : WorkerRecord) (pid : String) (a b c d nm : String)
    (h1 : env.downloadFaceOk = true) (h2 : env.downloadIdOk = true)
    (h3 : env.updateOk = true)
    (hb : w.blocked = false)
    (hnm : w.fullName = some nm)
    (hget : getByNationalId db w.nationalIdNumber = some ex)
    (hpid : livePid ex.hikcentral_id = some pid)
    (hvf : ex.validFrom = some (.pstr a)) (hvt : ex.validTo = some (.pstr b))
    (hwf : w.validFrom = some (.pstr c)) (hwt : w.validTo = some (.pstr d)) :
    ∃ du e1 e2,
      (processWorker env (processWorker env db w).db w).calls =
        [.updatePerson du] ∧
      (∀ call ∈ (processWorker env (processWorker env db w).db w).calls,
        call.isAddPerson = false) ∧
      getByNationalId (processWorker env db w).db w.nationalIdNumber =
        some e1 ∧
      getByNationalId (processWorker env (processWorker env db w).db w).db
        w.nationalIdNumber = some e2 ∧
      e2.hikcentral_id = e1.hikcentral_id ∧ e2.status = e1.status ∧
      e2.blocked = e1.blocked ∧
      e2.hikcentral_deleted = e1.hikcentral_deleted ∧
      e2.validFrom = e1.validFrom ∧ e2.validTo = e1.validTo := by
  have s1 := processWorker_update_strings env db w ex pid a b c d nm
    h1 h2 h3 hb hnm hget hpid hvf hvt hwf hwt
  have hget1 : getByNationalId (processWorker env db w).db w.nationalIdNumber =
      some (mergedLedgerUpdate env w (.pstr (pyMinStr a c))
        (.pstr (pyMaxStr b d)) ex) := by
    rw [s1]; exact getByNationalId_after_merge env db w ex _ _ hget
  have s2 := processWorker_update_strings env (processWorker env db w).db w
    (mergedLedgerUpdate env w (.pstr (pyMinStr a c)) (.pstr (pyMaxStr b d)) ex)
    pid (pyMinStr a c) (pyMaxStr b d) c d nm
    h1 h2 h3 hb hnm hget1 hpid rfl rfl hwf hwt
  rw [pyMinStr_right_absorb, pyMaxStr_right_absorb] at s2
  refine ⟨updateDataStr env w pid (.pstr (pyMinStr a c))
      (.pstr (pyMaxStr b d)) nm,
    mergedLedgerUpdate env w (.pstr (pyMinStr a c)) (.pstr (pyMaxStr b d)) ex,
    mergedLedgerUpdate env w (.pstr (pyMinStr a c)) (.pstr (pyMaxStr b d))
      (mergedLedgerUpdate env w (.pstr (pyMinStr a c))
        (.pstr (pyMaxStr b d)) ex),
    ?_, ?_, hget1, ?_, rfl, rfl, rfl, rfl, rfl, rfl⟩
  · rw [s2]
  · intro call hc
    rw [s2] at hc
    simp only [List.mem_singleton] at hc
    rw [hc]
    rfl
  · rw [s2]
    exact getByNationalId_after_merge env _ w _ _ _ hget1

/-- A concrete environment for the blocked-without-entry scenario: downloads
succeed and the remote create returns person id `H77`. -/
def c3Env : Env := { addPersonResult := some "H77", now := "T3" }

/-- A concrete *blocked* worker payload whose natural identity number has no
ledger entry. -/
def c3Worker : WorkerPayload :=
  { mapEventWorker
      { workerId := some "W3", nationalIdNumber := some "N3",
        fullName := some "Bob Marley", facePhoto := some "u1",
        nationalIdImage := some "u2" } with
    blocked := true }

/-- C3 evaluation at the failing input: a blocked worker with no ledger entry
falls through the `if blocked:` block (which has no branch for this case) into
the provisioning tail — the code issues a remote person-create plus a
privilege-group call, reports upstream `approved`, and records a live,
non-blocked, non-tombstoned ledger entry, instead of creating a local
tombstone, reporting `blocked`, and issuing no remote call. -/
theorem blocked_without_entry_provisions :
    ((processWorker c3Env [] c3Worker).calls.map RCall.isAddPerson) =
      [true, false] ∧
    (processWorker c3Env [] c3Worker).reports =
      [{ workerId := some "W3", status := "approved",
         externalId := some "H77" }] ∧
    (getByNationalId (processWorker c3Env [] c3Worker).db (some "N3")).map
        (fun r => (r.blocked, r.status, r.hikcentral_deleted)) =
      some (false, some "approved", some false) := by
  decide

/-- A pass environment whose upstream fetch raises (registry unreachable). -/
def c8FetchFail : SyncEnv :=
  { fetch := .error "connection refused", startedAt := "S1", finishedAt := "F1" }

/-- A pass status carrying the error of some previous pass. -/
def c8PrevState : SyncState := { last_sync_error := some "previous error" }

/-- C8 counterexample: when the upstream fetch fails, the pass aborts with
nothing processed, but the failure is *not* recorded as the pass's error —
`get_pending_events` swallows the exception into an empty result and `sync`
returns early, leaving `last_sync_error` (and the finish timestamp) at their
previous values. -/
theorem fetch_failure_error_not_recorded :
    (syncPass c8FetchFail c8PrevState).state.last_sync_error =
      some "previous error" ∧
    (syncPass c8FetchFail c8PrevState).state.last_sync_error ≠
      some "connection refused" ∧
    (syncPass c8FetchFail c8PrevState).state.last_sync_finished = none ∧
    (syncPass c8FetchFail c8PrevState).calls = [] ∧
    (syncPass c8FetchFail c8PrevState).reports = [] := by
  decide

/-- C8 (amended): an exception while processing one item is caught at the
orchestrator boundary and the pass continues with the remaining items exactly
as it would have (same final ledger, the item's partial effects kept); a
top-level fetch failure aborts the whole pass with nothing processed, but it
is *not* recorded in the pass status — the pass returns early with
`last_sync_finished` and `last_sync_error` unchanged. -/
theorem pass_isolation_and_fetch_abort :
    (∀ (env : Env) (db : List WorkerRecord) (e : Event) (es : List Event)
        (pe : PyErr), (handleEvent env db e).err = some pe →
      runEvents env db (e :: es) =
        ((runEvents env (handleEvent env db e).db es).1,
         (handleEvent env db e).calls ++
           (runEvents env (handleEvent env db e).db es).2.1,
         (handleEvent env db e).reports ++
           (runEvents env (handleEvent env db e).db es).2.2)) ∧
    (∀ (se : SyncEnv) (st : SyncState) (msg : String),
      se.fetch = .error msg →
      syncPass se st =
        { state := { st with last_sync_started := some se.startedAt },
          calls := [], reports := [] }) := by
  constructor
  · intro env db e es pe _
    rfl
  · intro se st msg h
    simp [syncPass, getPendingEvents, h]

/-- The given name of a built create payload (projection for evaluation). -/
def addGivenNameOf (e : Except PyErr AddData) : String :=
  match e with
  | .ok d => d.personGivenName
  | .error _ => "ERR"

/-- The given name of a built update payload (projection for evaluation). -/
def updGivenNameOf (e : Except PyErr UpdateData) : String :=
  match e with
  | .ok d => d.personGivenName
  | .error _ => "ERR"

/-- A one-token profile for the name-split comparison. -/
def c9Worker : WorkerPayload :=
  { id := some "W9", nationalIdNumber := some "N9", fullName := some "Alice",
    validFrom := some (.pstr "2025-01-01"), validTo := some (.pstr "2025-12-31") }

/-- C9 counterexample: the create and update payloads do *not* split the name
the same way, and the given name is not always the remaining tokens joined:
for the one-token name `"Alice"` the create payload's given name is the
placeholder `"Unknown"` while the update payload's is `""`. -/
theorem name_split_differs_between_payloads :
    addGivenNameOf (buildAddData { } c9Worker "face") = "Unknown" ∧
    updGivenNameOf (buildUpdateData { } c9Worker "P9" (.pstr "2025-01-01")
      (.pstr "2025-12-31")) = "" ∧
    addGivenNameOf (buildAddData { } c9Worker "face") ≠
      updGivenNameOf (buildUpdateData { } c9Worker "P9" (.pstr "2025-01-01")
        (.pstr "2025-12-31")) := by
  decide

/-- C9 (amended): both payloads take the last whitespace token as family name
and the remaining tokens joined by spaces as given name *when the name has at
least two tokens*, and then agree with each other; with fewer than two tokens
the create payload falls back to the placeholder `"Unknown"` (for the family
name only when there is no token at all) while the update payload falls back
to the empty string; the validity window is formatted as
`<date>T00:00:00<tz>` / `<date>T23:59:59<tz>`. -/
theorem name_split_amended (env : Env) (w : WorkerPayload)
    (nm fd td pid mbs mes : String) (face : String)
    (hnm : w.fullName = some nm)
    (hf : w.validFrom = some (.pstr fd)) (ht : w.validTo = some (.pstr td)) :
    ∃ da du,
      buildAddData env w face = .ok da ∧
      buildUpdateData env w pid (.pstr mbs) (.pstr mes) = .ok du ∧
      da.personFamilyName = (pySplit nm).getLast?.getD "Unknown" ∧
      du.personFamilyName = (pySplit nm).getLast?.getD "" ∧
      da.personGivenName = (if 1 < (pySplit nm).length
        then " ".intercalate (pySplit nm).dropLast else "Unknown") ∧
      du.personGivenName = (if 1 < (pySplit nm).length
        then " ".intercalate (pySplit nm).dropLast else "") ∧
      (1 < (pySplit nm).length →
        da.personFamilyName = du.personFamilyName ∧
        da.personGivenName = du.personGivenName ∧
        da.personGivenName = " ".intercalate (pySplit nm).dropLast) ∧
      da.beginTime = fd ++ "T00:00:00" ++ env.tzOffset ∧
      da.endTime = td ++ "T23:59:59" ++ env.tzOffset ∧
      du.beginTime = mbs ++ "T00:00:00" ++ env.tzOffset ∧
      du.endTime = mes ++ "T23:59:59" ++ env.tzOffset := by
  simp only [buildAddData, buildUpdateData, hnm, hf, ht]
  refine ⟨_, _, rfl, rfl, rfl, rfl, rfl, rfl, ?_, rfl, rfl, rfl, rfl⟩
  intro h
  have hne : pySplit nm ≠ [] := by
    intro hnil
    rw [hnil] at h
    simp at h
  obtain ⟨t, hts⟩ := Option.isSome_iff_exists.mp
    (List.getLast?_isSome.mpr hne)
  refine ⟨?_, ?_, ?_⟩
  · simp [updateDataStr, hts]
  · simp [updateDataStr, h]
  · simp [updateDataStr, h]

/-! ## Witnesses: each hypothesized claim theorem applied at a concrete input -/

/-- A concrete event worker for the C10 witness. -/
def c10Ew : EventWorker :=
  { workerId := some "W10", nationalIdNumber := some "N10",
    fullName := some "Jane Roe", facePhoto := some "u",
    nationalIdImage := some "v" }

/-- Witness for C10 at a concrete event worker and empty ledger. -/
theorem event_mode_null_window_provisioning_witness :
    getByNationalId [] (mapEventWorker c10Ew).nationalIdNumber = none ∧
    ((mapEventWorker c10Ew).validFrom = some .pnull ∧
     (mapEventWorker c10Ew).validTo = some .pnull ∧
     ∃ d, (processWorker { } []
         { mapEventWorker c10Ew with blocked := false }).calls.head? =
           some (.addPerson d) ∧
       d.beginTime = "NoneT00:00:00" ++ ({ } : Env).tzOffset ∧
       d.endTime = "NoneT23:59:59" ++ ({ } : Env).tzOffset) :=
  ⟨by decide,
   event_mode_null_window_provisioning c10Ew { } [] "Jane Roe" rfl rfl rfl
     (by decide)⟩

/-- A concrete tombstoned ledger entry for the C4 witness. -/
def c4Rec : WorkerRecord :=
  { id := some "W4", nationalIdNumber := some "N4",
    hikcentral_id := some "P4", hikcentral_deleted := some true }

/-- A concrete blocked payload for the C4 witness. -/
def c4Worker : WorkerPayload :=
  { id := some "W4", nationalIdNumber := some "N4",
    fullName := some "X Y", blocked := true }

/-- Witness for C4: one blocked reprocessing of a tombstoned entry, followed
by another. -/
theorem tombstoned_blocked_no_second_delete_witness :
    (processWorker { } [c4Rec] c4Worker).calls = [] ∧
    (processWorker { } [c4Rec] c4Worker).reports =
      [{ workerId := c4Worker.id, status := "blocked",
         externalId := livePid c4Rec.hikcentral_id }] ∧
    (processSeq { } [c4Rec] (c4Worker :: [c4Worker])).2 = [] :=
  tombstoned_blocked_no_second_delete { } [c4Rec] c4Worker [c4Worker] c4Rec
    rfl (by decide) rfl (by decide)

/-- A concrete live ledger entry for the C6 witness. -/
def c6Rec : WorkerRecord :=
  { id := some "W6", nationalIdNumber := some "N6",
    hikcentral_id := some "P6", blocked := false,
    hikcentral_deleted := some false }

/-- A concrete deletion-event payload for the C6 witness (note its upstream
worker id is absent: the lookup is by natural identity number). -/
def c6Ew : EventWorker := { nationalIdNumber := some "N6" }

/-- A concrete deletion event for the C6 witness. -/
def c6Event : Event := { type := "worker.deleted", workers := [c6Ew] }

/-- Witness for C6 at a concrete deletion event. -/
theorem deletion_event_hard_delete_tombstone_witness :
    RCall.deletePersonFull "P6" ∈ (handleEvent { } [c6Rec] c6Event).calls ∧
    getByNationalId
        (deletionStep { } (runDeletionSteps { } [c6Rec] []).1 c6Ew).1
        (some "N6") =
      some { c6Rec with blocked := true, hikcentral_deleted := some true,
                        updated_at := some ({ } : Env).now } :=
  deletion_event_hard_delete_tombstone { } [c6Rec] c6Event [] [] c6Ew c6Rec
    "N6" "P6" (by decide) rfl rfl (by decide) (by decide) (by decide)

/-- A concrete live ledger entry with window `[A,B]` for the C5 witness. -/
def c5Rec : WorkerRecord :=
  { id := some "W5", nationalIdNumber := some "N5",
    hikcentral_id := some "P5",
    validFrom := some (.pstr "2025-02-01"), validTo := some (.pstr "2025-06-30") }

/-- The `[A,B]`-window payload for the C5 witness. -/
def c5WorkerAB : WorkerPayload :=
  { id := some "W5", nationalIdNumber := some "N5", fullName := some "Ann Lee",
    blocked := false,
    validFrom := some (.pstr "2025-02-01"), validTo := some (.pstr "2025-06-30") }

/-- The `[C,D]`-window payload for the C5 witness. -/
def c5WorkerCD : WorkerPayload :=
  { id := some "W5", nationalIdNumber := some "N5", fullName := some "Ann Lee",
    blocked := false,
    validFrom := some (.pstr "2025-01-15"), validTo := some (.pstr "2025-03-01") }

/-- Witness for C5 at concrete windows. -/
theorem window_merge_commutes_witness :
    (∃ e2, getByNationalId (processWorker { } [c5Rec] c5WorkerCD).db
        c5WorkerCD.nationalIdNumber = some e2 ∧
      e2.validFrom = some (.pstr (min "2025-02-01" "2025-01-15")) ∧
      e2.validTo = some (.pstr (max "2025-06-30" "2025-03-01")) ∧
      e2.hikcentral_deleted = some false) ∧
    (∃ eP, getByNationalId
        (processWorker { } (processWorker { } [c5Rec] c5WorkerAB).db
          c5WorkerCD).db c5WorkerCD.nationalIdNumber = some eP ∧
      eP.validFrom = some (.pstr (min "2025-02-01" "2025-01-15")) ∧
      eP.validTo = some (.pstr (max "2025-06-30" "2025-03-01"))) ∧
    (∃ eQ, getByNationalId
        (processWorker { } (processWorker { } [c5Rec] c5WorkerCD).db
          c5WorkerAB).db c5WorkerAB.nationalIdNumber = some eQ ∧
      eQ.validFrom = some (.pstr (min "2025-02-01" "2025-01-15")) ∧
      eQ.validTo = some (.pstr (max "2025-06-30" "2025-03-01"))) :=
  window_merge_commutes { } [c5Rec] c5WorkerAB c5WorkerCD c5Rec "P5"
    "2025-02-01" "2025-06-30" "2025-01-15" "2025-03-01" "Ann Lee" "Ann Lee"
    rfl rfl rfl rfl rfl rfl rfl rfl (by decide) (by decide)
    rfl rfl rfl rfl rfl rfl

/-- A concrete live string-window ledger entry for the C2 witness. -/
def c2wRec : WorkerRecord :=
  { id := some "W2", nationalIdNumber := some "N2",
    hikcentral_id := some "P2",
    validFrom := some (.pstr "2025-01-01"), validTo := some (.pstr "2025-12-31") }

/-- A concrete string-window payload for the C2 witness. -/
def c2wWorker : WorkerPayload :=
  { id := some "W2", nationalIdNumber := some "N2", fullName := some "Joe Fox",
    blocked := false,
    validFrom := some (.pstr "2025-03-01"), validTo := some (.pstr "2025-10-01") }

/-- Witness for the amended C2 at a concrete string-window replay. -/
theorem replay_update_idempotent_witness :
    ∃ du e1 e2,
      (processWorker { } (processWorker { } [c2wRec] c2wWorker).db
        c2wWorker).calls = [.updatePerson du] ∧
      (∀ call ∈ (processWorker { } (processWorker { } [c2wRec] c2wWorker).db
        c2wWorker).calls, call.isAddPerson = false) ∧
      getByNationalId (processWorker { } [c2wRec] c2wWorker).db
        c2wWorker.nationalIdNumber = some e1 ∧
      getByNationalId (processWorker { } (processWorker { } [c2wRec]
        c2wWorker).db c2wWorker).db c2wWorker.nationalIdNumber = some e2 ∧
      e2.hikcentral_id = e1.hikcentral_id ∧ e2.status = e1.status ∧
      e2.blocked = e1.blocked ∧
      e2.hikcentral_deleted = e1.hikcentral_deleted ∧
      e2.validFrom = e1.validFrom ∧ e2.validTo = e1.validTo :=
  replay_update_idempotent { } [c2wRec] c2wWorker c2wRec "P2"
    "2025-01-01" "2025-12-31" "2025-03-01" "2025-10-01" "Joe Fox"
    rfl rfl rfl rfl rfl (by decide) (by decide) rfl rfl rfl rfl

/-- An event whose handling raises (`fullName` is `None`, so the provisioning
path raises `AttributeError` in `add_person`'s name split). -/
def c8BadEvent : Event :=
  { type := "worker.created", workers := [{ nationalIdNumber := some "N8" }] }

/-- Witness for the amended C8: a raising event followed by no others, and a
fetch failure at a concrete previous state. -/
theorem pass_isolation_and_fetch_abort_witness :
    runEvents { } [] (c8BadEvent :: []) =
      ((runEvents { } (handleEvent { } [] c8BadEvent).db []).1,
       (handleEvent { } [] c8BadEvent).calls ++
         (runEvents { } (handleEvent { } [] c8BadEvent).db []).2.1,
       (handleEvent { } [] c8BadEvent).reports ++
         (runEvents { } (handleEvent { } [] c8BadEvent).db []).2.2) ∧
    syncPass c8FetchFail c8PrevState =
      { state := { c8PrevState with
          last_sync_started := some c8FetchFail.startedAt },
        calls := [], reports := [] } :=
  ⟨pass_isolation_and_fetch_abort.1 { } [] c8BadEvent [] .attributeError
     (by decide),
   pass_isolation_and_fetch_abort.2 c8FetchFail c8PrevState
     "connection refused" rfl⟩

/-- A three-token profile for the C9 witness. -/
def c9wWorker : WorkerPayload :=
  { id := some "W9", nationalIdNumber := some "N9",
    fullName := some "Mary Jane Watson",
    validFrom := some (.pstr "2025-01-01"), validTo := some (.pstr "2026-01-01") }

/-- Witness for the amended C9 at a concrete three-token name. -/
theorem name_split_amended_witness :
    ∃ da du,
      buildAddData { } c9wWorker "face" = .ok da ∧
      buildUpdateData { } c9wWorker "PX" (.pstr "2025-02-02")
        (.pstr "2025-11-11") = .ok du ∧
      da.personFamilyName =
        (pySplit "Mary Jane Watson").getLast?.getD "Unknown" ∧
      du.personFamilyName = (pySplit "Mary Jane Watson").getLast?.getD "" ∧
      da.personGivenName = (if 1 < (pySplit "Mary Jane Watson").length
        then " ".intercalate (pySplit "Mary Jane Watson").dropLast
        else "Unknown") ∧
      du.personGivenName = (if 1 < (pySplit "Mary Jane Watson").length
        then " ".intercalate (pySplit "Mary Jane Watson").dropLast else "") ∧
      (1 < (pySplit "Mary Jane Watson").length →
        da.personFamilyName = du.personFamilyName ∧
        da.personGivenName = du.personGivenName ∧
        da.personGivenName =
          " ".intercalate (pySplit "Mary Jane Watson").dropLast) ∧
      da.beginTime = "2025-01-01" ++ "T00:00:00" ++ ({ } : Env).tzOffset ∧
      da.endTime = "2026-01-01" ++ "T23:59:59" ++ ({ } : Env).tzOffset ∧
      du.beginTime = "2025-02-02" ++ "T00:00:00" ++ ({ } : Env).tzOffset ∧
      du.endTime = "2025-11-11" ++ "T23:59:59" ++ ({ } : Env).tzOffset :=
  name_split_amended { } c9wWorker "Mary Jane Watson" "2025-01-01" "2026-01-01"
    "PX" "2025-02-02" "2025-11-11" "face" rfl rfl rfl

end Hydepark
